import Mathlib

/-
Verification development for the shotgunEvents daemon
(src/shotgunEventDaemon.py).

The dispatch core is embedded shallowly:
  * `Event`, `Callback`, `Plugin`, `PluginCollection` mirror the classes of
    the same names in shotgunEventDaemon.py.
  * Python dictionaries (the plugin backlog, match filters, state mappings)
    are association lists with unique-key update semantics.
  * Wall-clock time (`datetime.datetime.now()`) is an explicit `now : Nat`
    parameter, counted in seconds, threaded into every operation that reads
    the clock.
  * A user callback body is modelled by `behavior : Event → Bool`:
    `true` means the callable returns normally, `false` means it raises.
  * Dispatches are recorded in an explicit log of (callback name, event id)
    pairs so that delivery properties can be stated.
-/

/-- Five minutes in seconds; `datetime.timedelta(minutes=5)`, the hard-coded
backlog expiry delay of `Plugin._updateLastEventId`. -/
def fiveMinutes : Nat := 5 * 60

/-- One event fetched from the event source. Only the fields the dispatch
core inspects (`id`, `event_type`, `attribute_name`) are carried; the other
payload fields are opaque to the core. -/
structure Event where
  id : Nat
  event_type : String
  attribute_name : Option String

/-- A match filter: mapping from event-type string to either null (any
attribute) or a list of attribute names, as passed to `registerCallback`. -/
def MatchMap : Type := List (String × Option (List String))

/-- Dictionary lookup on a match filter. -/
def lookupKey : MatchMap → String → Option (Option (List String))
  | [], _ => none
  | kv :: rest, k => if kv.1 = k then some kv.2 else lookupKey rest k

/-- Emptiness of a match filter dictionary. -/
def MatchMap.isEmpty (m : MatchMap) : Bool :=
  List.isEmpty m

/-- The attribute-level check of `Callback.canProcess` (lines 828-836):
`attributes is None or '*' in attributes` accepts, else a truthy
`event['attribute_name']` that is a member of `attributes` accepts. -/
def attrCheck (attributes : Option (List String)) (e : Event) : Bool :=
  match attributes with
  | none => true
  | some attrs =>
    if attrs.contains "*" then true
    else
      match e.attribute_name with
      | some s => s != "" && attrs.contains s
      | none => false

/-- `Callback.canProcess` (lines 817-836). `not self._matchEvents` is true
for both an absent (None) filter and an empty dictionary. When the key `*`
is present it is used as the match key; otherwise the event's `event_type`
must be a key. -/
def canProcess (matchEvents : Option MatchMap) (e : Event) : Bool :=
  match matchEvents with
  | none => true
  | some m =>
    if m.isEmpty then true
    else
      let eventType := if (lookupKey m "*").isSome then "*" else e.event_type
      match lookupKey m eventType with
      | none => false
      | some attributes => attrCheck attributes e

/-- One registered callback. `behavior` models the user callable: `true`
when the call returns normally, `false` when it raises. -/
structure Callback where
  name : String
  matchEvents : Option MatchMap
  behavior : Event → Bool
  active : Bool

/-- `Callback.process` (lines 838-866): invoke the user callable; on any
raised failure set `active = False`. The caller reads the updated active
flag. -/
def Callback.process (c : Callback) (e : Event) : Callback :=
  if c.behavior e then c else { c with active := false }

/-- The mutable state of a `Plugin` that the dispatch claims are about.
`backlog` maps a skipped event id to its absolute expiry timestamp. -/
structure Plugin where
  active : Bool
  lastEventId : Option Nat
  backlog : List (Nat × Nat)
  callbacks : List Callback
  mtime : Option Nat

/-- Membership test on the backlog dictionary (`event['id'] in self._backlog`). -/
def backlogContains (m : List (Nat × Nat)) (k : Nat) : Bool :=
  m.any (fun kv => kv.1 == k)

/-- Deletion from the backlog dictionary (`del self._backlog[id]`). -/
def backlogErase (m : List (Nat × Nat)) (k : Nat) : List (Nat × Nat) :=
  m.filter (fun kv => kv.1 != k)

/-- Dictionary assignment `self._backlog[k] = v`. -/
def backlogSet (m : List (Nat × Nat)) (k v : Nat) : List (Nat × Nat) :=
  m.filter (fun kv => kv.1 != k) ++ [(k, v)]

/-- Dictionary lookup on the backlog. -/
def backlogLookup : List (Nat × Nat) → Nat → Option Nat
  | [], _ => none
  | kv :: rest, k => if kv.1 = k then some kv.2 else backlogLookup rest k

/-- The callback loop of `Plugin._process` (lines 701-716). Returns the
updated callback list, the plugin's active flag after the loop (the loop
breaks and deactivates the plugin as soon as a callback comes back
inactive), and the list of (callback name, event id) dispatches made. -/
def procCallbacks (e : Event) (act : Bool) : List Callback → List Callback × Bool × List (String × Nat)
  | [] => ([], act, [])
  | c :: rest =>
    if c.active then
      if canProcess c.matchEvents e then
        let c2 := Callback.process c e
        if c2.active then
          let r := procCallbacks e act rest
          (c2 :: r.1, r.2.1, (c.name, e.id) :: r.2.2)
        else
          (c2 :: rest, false, [(c.name, e.id)])
      else
        let r := procCallbacks e act rest
        (c :: r.1, r.2.1, r.2.2)
    else
      let r := procCallbacks e act rest
      (c :: r.1, r.2.1, r.2.2)

/-- `Plugin._process` (lines 701-716): run the callback loop; the returned
Bool is `self._active` after the loop. -/
def Plugin._process (p : Plugin) (e : Event) : Plugin × Bool × List (String × Nat) :=
  let r := procCallbacks e p.active p.callbacks
  ({ p with callbacks := r.1, active := r.2.1 }, r.2.1, r.2.2)

/-- `Plugin._updateLastEventId` (lines 718-724): when the new id jumps more
than one past the current cursor, every skipped id in between is written to
the backlog with expiry `now + fiveMinutes`; then the cursor is assigned
the new id unconditionally. -/
def Plugin._updateLastEventId (p : Plugin) (now : Nat) (eventId : Nat) : Plugin :=
  let p2 :=
    match p.lastEventId with
    | some last =>
      if last + 1 < eventId then
        { p with backlog :=
            ((List.range' (last + 1) (eventId - last - 1)).foldl
              (fun acc k => backlogSet acc k (now + fiveMinutes)) p.backlog) }
      else p
    | none => p
  { p2 with lastEventId := some eventId }

/-- `Plugin.process` (lines 687-699): backlog ids are dispatched and removed
on success; ids at or below the cursor are dropped as too old; fresh ids
are dispatched and, on success, advance the cursor. The dispatch log is
returned alongside the updated plugin. -/
def Plugin.process (p : Plugin) (now : Nat) (e : Event) : Plugin × List (String × Nat) :=
  if backlogContains p.backlog e.id then
    let r := Plugin._process p e
    if r.2.1 then
      (Plugin._updateLastEventId { r.1 with backlog := backlogErase r.1.backlog e.id } now e.id, r.2.2)
    else (r.1, r.2.2)
  else
    match p.lastEventId with
    | some last =>
      if e.id ≤ last then (p, [])
      else
        let r := Plugin._process p e
        if r.2.1 then (Plugin._updateLastEventId r.1 now e.id, r.2.2)
        else (r.1, r.2.2)
    | none =>
      let r := Plugin._process p e
      if r.2.1 then (Plugin._updateLastEventId r.1 now e.id, r.2.2)
      else (r.1, r.2.2)

/-- The backlog walk of `Plugin.getNextUnprocessedEventId` (lines 600-608):
entries whose expiry is before `now` are deleted (their keys are collected
as WARNING log output); a surviving key lowers the running minimum. Returns
(surviving backlog, next id, warned keys). -/
def walkBacklog (now : Nat) : List (Nat × Nat) → Option Nat → List (Nat × Nat) × Option Nat × List Nat
  | [], nextId => ([], nextId, [])
  | (k, v) :: rest, nextId =>
    if v < now then
      let r := walkBacklog now rest nextId
      (r.1, r.2.1, k :: r.2.2)
    else
      let nextId2 :=
        match nextId with
        | none => some k
        | some n => if k < n then some k else some n
      let r := walkBacklog now rest nextId2
      ((k, v) :: r.1, r.2.1, r.2.2)

/-- `Plugin.getNextUnprocessedEventId` (lines 594-609). Note the Python
source reads `if self._lastEventId:`, a truthiness test, so a cursor of 0
contributes no candidate, exactly like an unset cursor. Returns the plugin
with expired backlog entries removed, the next unprocessed id, and the list
of backlog keys whose timeout elapsed (each is logged at WARNING). -/
def Plugin.getNextUnprocessedEventId (p : Plugin) (now : Nat) : Plugin × Option Nat × List Nat :=
  let nextId0 :=
    match p.lastEventId with
    | some last => if last == 0 then none else some (last + 1)
    | none => none
  let r := walkBacklog now p.backlog nextId0
  ({ p with backlog := r.1 }, r.2.1, r.2.2)

/-- A per-plugin serialized state value: either a bare integer (legacy) or
a `(lastEventId, backlog)` tuple, the two shapes `Plugin.setState`
(lines 583-589) accepts. -/
inductive PluginStateVal where
  | intState (n : Nat)
  | tupleState (lastEventId : Option Nat) (backlog : List (Nat × Nat))
deriving DecidableEq

/-- `Plugin.setState` (lines 583-589): a bare integer sets only the cursor;
a tuple restores cursor and backlog together. -/
def Plugin.setState (p : Plugin) (s : PluginStateVal) : Plugin :=
  match s with
  | .intState n => { p with lastEventId := some n }
  | .tupleState l b => { p with lastEventId := l, backlog := b }

/-- `Plugin.getState` (lines 591-592). -/
def Plugin.getState (p : Plugin) : PluginStateVal :=
  .tupleState p.lastEventId p.backlog

/-- Python truthiness of a per-plugin state value, as tested by
`if pluginState:` in `PluginCollection.setState`: the integer 0 is falsy,
a tuple is always truthy (it has two components). -/
def stateTruthy : PluginStateVal → Bool
  | .intState n => n != 0
  | .tupleState _ _ => true

/-- A collection-level state value: a bare integer (legacy) or a mapping
from plugin name to per-plugin state, the two shapes
`PluginCollection.setState` (lines 480-490) accepts. -/
inductive CollStateVal where
  | legacyInt (n : Nat)
  | structured (m : List (String × PluginStateVal))
deriving DecidableEq

/-- Lookup of a plugin's entry in a structured state mapping
(`self._stateData.get(plugin.getName())`). -/
def lookupState : List (String × PluginStateVal) → String → Option PluginStateVal
  | [], _ => none
  | kv :: rest, nm => if kv.1 = nm then some kv.2 else lookupState rest nm

/-- A directory of plugins. Plugins are kept as (basename, plugin) pairs;
iteration is in the stored order, which the collection keeps sorted by
basename. -/
structure PluginCollection where
  path : String
  plugins : List (String × Plugin)

/-- `PluginCollection.setState` (lines 480-490): an integer is broadcast to
every plugin via `Plugin.setState`; a structured mapping is applied to each
plugin whose name has a truthy entry. -/
def PluginCollection.setState (c : PluginCollection) (s : CollStateVal) : PluginCollection :=
  match s with
  | .legacyInt n =>
    { c with plugins := c.plugins.map (fun np => (np.1, Plugin.setState np.2 (.intState n))) }
  | .structured m =>
    { c with plugins := c.plugins.map (fun np =>
        match lookupState m np.1 with
        | some ps => if stateTruthy ps then (np.1, Plugin.setState np.2 ps) else np
        | none => np) }

/-- The plugin loop of `PluginCollection.process` (lines 508-513): an active
plugin is processed, an inactive one is skipped with a DEBUG log and left
untouched. Returns updated plugins and the concatenated dispatch log. -/
def processPlugins (now : Nat) (e : Event) : List (String × Plugin) → List (String × Plugin) × List (String × Nat)
  | [] => ([], [])
  | (nm, p) :: rest =>
    let r := if p.active then Plugin.process p now e else (p, [])
    let rs := processPlugins now e rest
    ((nm, r.1) :: rs.1, r.2 ++ rs.2)

/-- `PluginCollection.process` (lines 508-513). -/
def PluginCollection.process (c : PluginCollection) (now : Nat) (e : Event) : PluginCollection × List (String × Nat) :=
  let r := processPlugins now e c.plugins
  ({ c with plugins := r.1 }, r.2)

/-- `Plugin.load` (lines 629-677), restricted to the success path: when the
on-disk mtime has not advanced past the stored one, nothing happens;
otherwise callbacks are reset to the freshly registered list
(`newCallbacks`, what `registerCallbacks` registers on this load), the
active flag is reset to true and the new mtime is stored. -/
def Plugin.load (p : Plugin) (diskMtime : Nat) (newCallbacks : List Callback) : Plugin :=
  match p.mtime with
  | none => { p with mtime := some diskMtime, callbacks := newCallbacks, active := true }
  | some m =>
    if m < diskMtime then
      { p with mtime := some diskMtime, callbacks := newCallbacks, active := true }
    else p

/-- What the durable event-id file yields on read, following
`Engine._loadEventIdData` (lines 294-356): the file may be absent, may
unpickle to a structured mapping from collection path to state, may fall
back to a legacy single-integer line, or may be unreadable garbage. -/
inductive EventIdFileState where
  | missing
  | structuredFile (d : List (String × CollStateVal))
  | legacyIntFile (n : Nat)
  | garbageFile
deriving DecidableEq

/-- Lookup of a collection's entry in the unpickled mapping
(`self._eventIdData.get(collection.path)`). -/
def lookupCollState : List (String × CollStateVal) → String → Option CollStateVal
  | [], _ => none
  | kv :: rest, path => if kv.1 = path then some kv.2 else lookupCollState rest path

/-- Python truthiness of a collection state value, as tested by
`if state:` in `Engine._loadEventIdData`: the integer 0 and the empty
mapping are falsy. -/
def collStateTruthy : CollStateVal → Bool
  | .legacyInt n => n != 0
  | .structured m => !(List.isEmpty m)

/-- `Engine._loadEventIdData` (lines 294-356). Only when the event id file
is absent does the engine query the event source for the single most-recent
event id (`find_one` on EventLogEntry ordered by id descending, modelled by
the `mostRecentId` argument) and broadcast it to every collection. When the
file is present, each collection whose path has a truthy entry gets that
entry applied; a legacy integer line is broadcast; garbage applies nothing.
The returned Bool records whether the event source was queried. -/
def loadEventIdData (colls : List PluginCollection) (file : EventIdFileState) (mostRecentId : Nat) : List PluginCollection × Bool :=
  match file with
  | .missing =>
    (colls.map (fun c => PluginCollection.setState c (.legacyInt mostRecentId)), true)
  | .structuredFile d =>
    (colls.map (fun c =>
      match lookupCollState d c.path with
      | some st => if collStateTruthy st then PluginCollection.setState c st else c
      | none => c), false)
  | .legacyIntFile n =>
    (colls.map (fun c => PluginCollection.setState c (.legacyInt n)), false)
  | .garbageFile => (colls, false)

/-- Sequential delivery of a list of fetched events to one plugin, in
order, concatenating the dispatch logs — the per-plugin view of the
engine's main loop. -/
def processEvents (now : Nat) : Plugin → List Event → Plugin × List (String × Nat)
  | p, [] => (p, [])
  | p, e :: es =>
    let r := Plugin.process p now e
    let rs := processEvents now r.1 es
    (rs.1, r.2 ++ rs.2)

/-- Number of times event id `i` was dispatched to the callback named `nm`
in a dispatch log. -/
def countLog (log : List (String × Nat)) (nm : String) (i : Nat) : Nat :=
  (log.filter (fun x => x.1 == nm && x.2 == i)).length

/-- Does every backlog key lie strictly below the plugin's cursor? This is
the invariant stated in the specification for plugin backlogs. -/
def backlogBelowCursor (p : Plugin) : Bool :=
  p.backlog.all (fun kv =>
    match p.lastEventId with
    | some l => decide (kv.1 < l)
    | none => false)

/-- A callback that always succeeds, with no match filter. -/
def cbOK : Callback :=
  { name := "A", matchEvents := none, behavior := fun _ => true, active := true }

/-- A callback that raises on every event, with no match filter. -/
def cbBad : Callback :=
  { name := "A", matchEvents := none, behavior := fun _ => false, active := true }

/-- An event with the given id and an arbitrary fixed payload. -/
def evt (n : Nat) : Event :=
  { id := n, event_type := "Shotgun_Task_Change", attribute_name := none }

/-- A plugin holding ids 11 and 12 in its backlog with cursor 13, as in the
specification's gap-and-catchup scenario after the gap. -/
def pCatchup : Plugin :=
  { active := true, lastEventId := some 13, backlog := [(11, 1000), (12, 1000)],
    callbacks := [cbOK], mtime := some 1 }

/-- Claim C1: with `lastEventId = 13` and 11 in the backlog, a successful
`Plugin.process` of event 11 (the plugin stays active: every callback
succeeded) removes 11 from the backlog — but, contrary to the claim,
`_updateLastEventId(11)` then assigns `lastEventId = 11` unconditionally
(line 724), regressing the cursor from 13 to 11 instead of leaving it at
13. -/
theorem c1_cursor_regresses :
    ((Plugin.process pCatchup 500 (evt 11)).1).active = true
    ∧ backlogContains ((Plugin.process pCatchup 500 (evt 11)).1).backlog 11 = false
    ∧ ((Plugin.process pCatchup 500 (evt 11)).1).lastEventId = some 11 := by
  refine ⟨rfl, rfl, rfl⟩

/-- Claim C2: the invariant "every backlog key is strictly below the
cursor" holds of `pCatchup` yet is destroyed by a single successful
`Plugin.process` of backlog id 11: afterwards the backlog still holds 12
while the cursor has regressed to 11. -/
theorem c2_invariant_broken :
    backlogBelowCursor pCatchup = true
    ∧ backlogBelowCursor ((Plugin.process pCatchup 500 (evt 11)).1) = false := by
  constructor
  · rfl
  · rfl

/-- A plugin with cursor 10 and an empty backlog, about to see a gap, as in
the specification's gap-and-catchup scenario before the gap. -/
def pGap : Plugin :=
  { active := true, lastEventId := some 10, backlog := [], callbacks := [cbOK],
    mtime := some 1 }

/-- Claim C3: delivering the fetch sequence 13, then the late arrivals 11
and 12, then 14 (the gap-and-catchup scenario) leaves the plugin asking for
id 13 again (its next unprocessed id is 13, because the regressed cursor
re-entered the already-processed id 13 into the backlog), so the engine
refetches and redelivers 13, and callback A receives event id 13 twice in a
single uninterrupted run. -/
theorem c3_double_dispatch :
    ((processEvents 500 pGap [evt 13, evt 11, evt 12, evt 14]).1.getNextUnprocessedEventId 500).2.1 = some 13
    ∧ countLog (processEvents 500 pGap [evt 13, evt 11, evt 12, evt 14, evt 13]).2 "A" 13 = 2 := by
  constructor
  · rfl
  · rfl

/-- Lookup after appending a single binding: the original bindings shadow
the appended one. -/
theorem backlogLookup_append_single (m : List (Nat × Nat)) (i v k : Nat) :
    backlogLookup (m ++ [(i, v)]) k =
      match backlogLookup m k with
      | some w => some w
      | none => if i = k then some v else none := by
  induction m with
  | nil => simp [backlogLookup]
  | cons hd tl ih =>
    rw [List.cons_append]
    by_cases h : hd.1 = k <;> simp [backlogLookup, h, ih]

/-- Lookup after filtering out one key. -/
theorem backlogLookup_filter_ne (m : List (Nat × Nat)) (i k : Nat) :
    backlogLookup (m.filter (fun kv => kv.1 != i)) k =
      if i = k then none else backlogLookup m k := by
  induction m with
  | nil => simp [backlogLookup]
  | cons hd tl ih =>
    by_cases h : hd.1 = i
    · have hf : List.filter (fun kv => kv.1 != i) (hd :: tl) = List.filter (fun kv => kv.1 != i) tl := by
        simp [List.filter_cons, h]
      rw [hf, ih]
      by_cases hik : i = k
      · simp [hik]
      · have hdk : ¬ hd.1 = k := fun hh => hik (h.symm.trans hh)
        simp [backlogLookup, hik, hdk]
    · have hf : List.filter (fun kv => kv.1 != i) (hd :: tl) = hd :: List.filter (fun kv => kv.1 != i) tl := by
        simp [List.filter_cons, h]
      rw [hf]
      by_cases hhk : hd.1 = k
      · have hik : ¬ i = k := fun hik => h (hhk.trans hik.symm)
        simp [backlogLookup, hhk, hik]
      · simp [backlogLookup, hhk, ih]

/-- Lookup after a dictionary assignment. -/
theorem backlogLookup_backlogSet (m : List (Nat × Nat)) (i v k : Nat) :
    backlogLookup (backlogSet m i v) k = if k = i then some v else backlogLookup m k := by
  rw [backlogSet, backlogLookup_append_single, backlogLookup_filter_ne]
  by_cases h : i = k
  · simp [h]
  · have h2 : ¬ k = i := fun hh => h hh.symm
    rw [if_neg h, if_neg h2]
    cases backlogLookup m k <;> simp [h]

/-- Lookup after assigning one value to every key of a list. -/
theorem backlogLookup_foldl_set (ks : List Nat) (m : List (Nat × Nat)) (v k : Nat) :
    backlogLookup (ks.foldl (fun acc i => backlogSet acc i v) m) k =
      if k ∈ ks then some v else backlogLookup m k := by
  induction ks generalizing m with
  | nil => simp
  | cons hd tl ih =>
    rw [List.foldl_cons, ih, backlogLookup_backlogSet]
    by_cases h1 : k ∈ tl
    · simp [h1]
    · by_cases h2 : k = hd <;> simp [h1, h2]

/-- The callback loop of `Plugin._process` touches only the callback list
and the active flag; cursor, backlog and mtime pass through unchanged. -/
theorem _process_preserves (p : Plugin) (e : Event) :
    (Plugin._process p e).1.lastEventId = p.lastEventId
    ∧ (Plugin._process p e).1.backlog = p.backlog
    ∧ (Plugin._process p e).1.mtime = p.mtime := by
  exact ⟨rfl, rfl, rfl⟩

/-- Behaviour of `Plugin._updateLastEventId` when the cursor is set: the
cursor becomes the new id; every id strictly between the old cursor and the
new id becomes a backlog entry expiring `fiveMinutes` after `now`; when the
new id is not a jump, the backlog is untouched. -/
theorem updateLastEventId_spec (p : Plugin) (now eventId L : Nat) (hL : p.lastEventId = some L) :
    (Plugin._updateLastEventId p now eventId).lastEventId = some eventId
    ∧ (∀ k, L < k → k < eventId →
        backlogLookup (Plugin._updateLastEventId p now eventId).backlog k = some (now + fiveMinutes))
    ∧ (¬ L + 1 < eventId → (Plugin._updateLastEventId p now eventId).backlog = p.backlog) := by
  simp only [Plugin._updateLastEventId, hL]
  by_cases hlt : L + 1 < eventId
  · rw [if_pos hlt]
    refine ⟨trivial, ?_, fun h => absurd hlt h⟩
    intro k hk1 hk2
    show backlogLookup ((List.range' (L + 1) (eventId - L - 1)).foldl
      (fun acc k => backlogSet acc k (now + fiveMinutes)) p.backlog) k = some (now + fiveMinutes)
    rw [backlogLookup_foldl_set]
    have hk : k ∈ List.range' (L + 1) (eventId - L - 1) := by
      rw [List.mem_range'_1]
      omega
    simp [hk]
  · rw [if_neg hlt]
    exact ⟨trivial, fun k hk1 hk2 => absurd hlt (by omega), fun _ => rfl⟩

/-- Branch behaviour of `Plugin.process` on a fresh event (not in the
backlog, strictly beyond the cursor): the callbacks run, and on success the
cursor update is applied to the result. -/
theorem process_fresh_eq (p : Plugin) (now : Nat) (e : Event) (L : Nat)
    (hL : p.lastEventId = some L)
    (hfresh : backlogContains p.backlog e.id = false)
    (hgt : L < e.id) :
    Plugin.process p now e =
      ((if (Plugin._process p e).2.1 = true then
          Plugin._updateLastEventId (Plugin._process p e).1 now e.id
        else (Plugin._process p e).1), (Plugin._process p e).2.2) := by
  simp only [Plugin.process, hfresh, Bool.false_eq_true, if_false, hL]
  rw [if_neg (Nat.not_le.mpr hgt)]
  split <;> rfl

/-- Claim C4: a successful `Plugin.process` of a fresh event with id
`e.id > L + 1` fills the backlog with every id in the open interval
`(L, e.id)`, each expiring `fiveMinutes` after `now`, and sets the cursor to
`e.id`; when `e.id = L + 1` the backlog is untouched. -/
theorem c4_gap_fills_backlog (p : Plugin) (now : Nat) (e : Event) (L : Nat)
    (hL : p.lastEventId = some L)
    (hfresh : backlogContains p.backlog e.id = false)
    (hgt : L < e.id)
    (hok : (Plugin._process p e).2.1 = true) :
    (Plugin.process p now e).1.lastEventId = some e.id
    ∧ (∀ k, L < k → k < e.id →
        backlogLookup (Plugin.process p now e).1.backlog k = some (now + fiveMinutes))
    ∧ (e.id = L + 1 → (Plugin.process p now e).1.backlog = p.backlog) := by
  rw [process_fresh_eq p now e L hL hfresh hgt, if_pos hok]
  have hpre := _process_preserves p e
  have hspec := updateLastEventId_spec (Plugin._process p e).1 now e.id L (hpre.1.trans hL)
  refine ⟨hspec.1, hspec.2.1, fun hsucc => ?_⟩
  rw [hspec.2.2 (by omega)]
  exact hpre.2.1

/-- A plugin with cursor 10, empty backlog and one succeeding callback,
used to instantiate the gap behaviour concretely. -/
def pW4 : Plugin :=
  { active := true, lastEventId := some 10, backlog := [], callbacks := [cbOK],
    mtime := some 1 }

/-- Witness for claim C4 at cursor 10: event 13 lands ids 11 and 12 in the
backlog with expiry 100 + fiveMinutes and moves the cursor to 13, while
event 11 (a jump of exactly one) leaves the backlog untouched. -/
theorem c4_gap_fills_backlog_witness :
    backlogLookup ((Plugin.process pW4 100 (evt 13)).1).backlog 11 = some (100 + fiveMinutes)
    ∧ backlogLookup ((Plugin.process pW4 100 (evt 13)).1).backlog 12 = some (100 + fiveMinutes)
    ∧ ((Plugin.process pW4 100 (evt 13)).1).lastEventId = some 13
    ∧ ((Plugin.process pW4 100 (evt 11)).1).backlog = pW4.backlog := by
  have h := c4_gap_fills_backlog pW4 100 (evt 13) 10 rfl rfl (by decide) rfl
  have h2 := c4_gap_fills_backlog pW4 100 (evt 11) 10 rfl rfl (by decide) rfl
  exact ⟨h.2.1 11 (by decide) (by decide), h.2.1 12 (by decide) (by decide), h.1, h2.2.2 rfl⟩

/-- Running minimum over a list of candidate ids, starting from an optional
accumulator; the specification's "minimum of the remaining backlog keys
together with lastEventId + 1". -/
def minFold : Option Nat → List Nat → Option Nat
  | acc, [] => acc
  | acc, k :: ks => minFold (match acc with
      | none => some k
      | some n => some (min n k)) ks

/-- Minimum of a list of candidate ids, none when the list is empty. -/
def listMin (l : List Nat) : Option Nat := minFold none l

/-- The running-minimum step written as the source writes it (`k < nextId`)
agrees with `Nat.min`. -/
theorem minFold_step (n k : Nat) :
    (if k < n then some k else some n) = some (min n k) := by
  rcases Nat.lt_or_ge k n with h | h
  · rw [if_pos h]
    exact congrArg some (by omega)
  · rw [if_neg (Nat.not_lt.mpr h)]
    exact congrArg some (by omega)

/-- Folding a minimum over an appended list. -/
theorem minFold_append (acc : Option Nat) (xs ys : List Nat) :
    minFold acc (xs ++ ys) = minFold (minFold acc xs) ys := by
  induction xs generalizing acc with
  | nil => rfl
  | cons hd tl ih => simp [minFold, ih]

/-- The backlog walk deletes exactly the expired entries, reports exactly
their keys as WARNING output, and returns the running minimum of the
accumulator and the surviving keys. -/
theorem walkBacklog_spec (now : Nat) (bl : List (Nat × Nat)) (acc : Option Nat) :
    walkBacklog now bl acc =
      (bl.filter (fun kv => !decide (kv.2 < now)),
       minFold acc ((bl.filter (fun kv => !decide (kv.2 < now))).map (fun kv => kv.1)),
       (bl.filter (fun kv => decide (kv.2 < now))).map (fun kv => kv.1)) := by
  induction bl generalizing acc with
  | nil => simp [walkBacklog, minFold]
  | cons hd tl ih =>
    obtain ⟨k, v⟩ := hd
    by_cases h : v < now
    · simp [walkBacklog, h, ih]
    · simp only [walkBacklog]
      rw [if_neg h]
      cases acc with
      | none => simp [h, ih, minFold]
      | some n => simp [h, ih, minFold, minFold_step]

/-- Claim C5: `getNextUnprocessedEventId` deletes exactly the backlog
entries whose expiry time has passed (reporting each deleted key at
WARNING), and returns the minimum of the surviving backlog keys together
with `lastEventId + 1` when the cursor is set; with no candidates the
result is none. Cursors are event ids, hence positive, which the
hypothesis records (the source tests the cursor by truthiness). -/
theorem c5_next_unprocessed (p : Plugin) (now : Nat)
    (hpos : ∀ l, p.lastEventId = some l → 0 < l) :
    (Plugin.getNextUnprocessedEventId p now).1.backlog
        = p.backlog.filter (fun kv => !decide (kv.2 < now))
    ∧ (Plugin.getNextUnprocessedEventId p now).2.2
        = (p.backlog.filter (fun kv => decide (kv.2 < now))).map (fun kv => kv.1)
    ∧ (Plugin.getNextUnprocessedEventId p now).2.1
        = listMin ((match p.lastEventId with
                    | some l => [l + 1]
                    | none => [])
            ++ (p.backlog.filter (fun kv => !decide (kv.2 < now))).map (fun kv => kv.1)) := by
  cases hle : p.lastEventId with
  | none =>
    simp only [Plugin.getNextUnprocessedEventId, hle, walkBacklog_spec, listMin, List.nil_append]
    exact ⟨trivial, trivial, trivial⟩
  | some l =>
    have hl0 : (l == 0) = false := by
      have := hpos l hle
      simp only [beq_eq_false_iff_ne, ne_eq]
      omega
    simp only [Plugin.getNextUnprocessedEventId, hle, hl0, Bool.false_eq_true, if_false,
      walkBacklog_spec, listMin]
    refine ⟨trivial, trivial, ?_⟩
    rw [minFold_append]
    rfl

/-- A plugin with cursor 100 and a backlog entry for id 95 that expired at
time 10, the specification's backlog-expiry scenario. -/
def pW5 : Plugin :=
  { active := true, lastEventId := some 100, backlog := [(95, 10)],
    callbacks := [cbOK], mtime := some 1 }

/-- Witness for claim C5: at time 20 the expired entry 95 is deleted and
reported, and the next unprocessed id is 101. -/
theorem c5_next_unprocessed_witness :
    (Plugin.getNextUnprocessedEventId pW5 20).1.backlog = []
    ∧ (Plugin.getNextUnprocessedEventId pW5 20).2.2 = [95]
    ∧ (Plugin.getNextUnprocessedEventId pW5 20).2.1 = some 101 := by
  have h := c5_next_unprocessed pW5 20 (by
    intro l hl
    have h100 : some (100 : Nat) = some l := hl
    injection h100 with hh
    omega)
  exact ⟨h.1.trans (by decide), h.2.1.trans (by decide), h.2.2.trans (by decide)⟩

/-- The claim's reading of the match-filter algebra, stated from the
specification's words as a flat disjunction: admit when the filter is
absent or empty, or when the key `*` has an admitting attribute set, or
when the event's `event_type` is a key with an admitting attribute set. -/
def canProcessClaim (matchEvents : Option MatchMap) (e : Event) : Bool :=
  match matchEvents with
  | none => true
  | some m =>
    m.isEmpty
    || (match lookupKey m "*" with
        | some attributes => attrCheck attributes e
        | none => false)
    || (match lookupKey m e.event_type with
        | some attributes => attrCheck attributes e
        | none => false)

/-- The amended reading: as the claim, except that the event-type key is
consulted only when `*` is not a key of the filter (when `*` is present,
its attribute set alone decides). -/
def canProcessAmended (matchEvents : Option MatchMap) (e : Event) : Bool :=
  match matchEvents with
  | none => true
  | some m =>
    m.isEmpty
    || (match lookupKey m "*" with
        | some attributes => attrCheck attributes e
        | none => false)
    || ((lookupKey m "*").isNone
        && (match lookupKey m e.event_type with
            | some attributes => attrCheck attributes e
            | none => false))

/-- A filter holding both a restrictive `*` entry and a permissive entry
for a concrete event type. -/
def fStar : Option MatchMap :=
  some [("*", some ["sg_status_list"]), ("Shotgun_Task_Change", none)]

/-- An event whose type has a null (admit-everything) entry in `fStar` but
whose attribute is rejected by the `*` entry. -/
def eStar : Event :=
  { id := 1, event_type := "Shotgun_Task_Change", attribute_name := some "sg_cut_in" }

/-- Counterexample to claim C7 as stated: on `fStar` and `eStar` the code's
`canProcess` answers false (the `*` key wins and its attribute set rejects
`sg_cut_in`), while the claim's disjunction answers true (via the
`Shotgun_Task_Change` key whose attribute set is null). -/
theorem c7_counterexample :
    canProcess fStar eStar = false ∧ canProcessClaim fStar eStar = true := by
  exact ⟨rfl, rfl⟩

/-- Claim C7 as amended: `canProcess` returns true iff the filter is absent
or empty, or the `*` key admits the event, or `*` is not a key and the
event's `event_type` is a key that admits the event. -/
theorem c7_can_process_amended (f : Option MatchMap) (e : Event) :
    canProcess f e = canProcessAmended f e := by
  cases f with
  | none => rfl
  | some m =>
    simp only [canProcess, canProcessAmended]
    cases hemp : MatchMap.isEmpty m with
    | true => simp [hemp]
    | false =>
      cases hstar : lookupKey m "*" with
      | some attrs => simp [hemp, hstar]
      | none =>
        simp only [hemp, hstar, Option.isNone_none, Bool.false_or, Bool.true_and,
          Option.isSome_none, Bool.false_eq_true, if_false, List.isEmpty_eq_false]
        cases lookupKey m e.event_type <;> simp [hemp]

/-- A plugin that has processed nothing yet: no cursor, empty backlog. -/
def pFresh : Plugin :=
  { active := true, lastEventId := none, backlog := [], callbacks := [cbOK],
    mtime := some 1 }

/-- A collection holding the single fresh plugin. -/
def collFresh : PluginCollection :=
  { path := "/usr/local/shotgun/plugins", plugins := [("plug", pFresh)] }

/-- Counterexample to claim C6 as stated: the event id file exists but its
mapping yields no per-plugin ids (it unpickles to an empty mapping). After
the state is read and applied no plugin has a `lastEventId` — the claim's
premise — yet the engine neither queries the event source for the
most-recent id nor seeds any plugin: the fresh-install branch of
`_loadEventIdData` runs only when the file does not exist. -/
theorem c6_counterexample :
    ((loadEventIdData [collFresh] (.structuredFile []) 100).1.all
        (fun c => c.plugins.all (fun np => np.2.lastEventId == none))) = true
    ∧ (loadEventIdData [collFresh] (.structuredFile []) 100).2 = false := by
  exact ⟨rfl, rfl⟩

/-- Claim C6 as amended: the engine queries the event source for the single
most-recent event id and seeds every plugin's cursor with it exactly when
the event id file does not exist; whenever the file exists — whatever it
decodes to, including a mapping that yields no per-plugin ids — no
bootstrap query is made. -/
theorem c6_seed_only_when_file_missing (colls : List PluginCollection) (mid : Nat) :
    (loadEventIdData colls .missing mid).2 = true
    ∧ (∀ c, c ∈ (loadEventIdData colls .missing mid).1 →
        ∀ np, np ∈ c.plugins → np.2.lastEventId = some mid)
    ∧ (∀ f, f ≠ EventIdFileState.missing → (loadEventIdData colls f mid).2 = false) := by
  refine ⟨rfl, ?_, ?_⟩
  · intro c hc np hnp
    simp only [loadEventIdData, List.mem_map] at hc
    obtain ⟨c0, hc0, rfl⟩ := hc
    simp only [PluginCollection.setState, List.mem_map] at hnp
    obtain ⟨np0, hnp0, rfl⟩ := hnp
    rfl
  · intro f hf
    cases f with
    | missing => exact absurd rfl hf
    | structuredFile d => rfl
    | legacyIntFile n => rfl
    | garbageFile => rfl

/-- Witness for the amended claim C6: with one fresh collection, a missing
file triggers the bootstrap query and seeds the plugin with 100, while an
existing legacy file triggers no query. -/
theorem c6_seed_only_when_file_missing_witness :
    (loadEventIdData [collFresh] .missing 100).2 = true
    ∧ ((loadEventIdData [collFresh] .missing 100).1.all
        (fun c => c.plugins.all (fun np => np.2.lastEventId == some 100))) = true
    ∧ (loadEventIdData [collFresh] (.legacyIntFile 5) 100).2 = false := by
  have h := c6_seed_only_when_file_missing [collFresh] 100
  exact ⟨h.1, by decide, h.2.2 (.legacyIntFile 5) (by decide)⟩

/-- Claim C8: when the first callback A raises on an event (A active, its
filter matching), A is deactivated, the whole plugin is deactivated, no
later callback receives that event (the dispatch log holds only A's entry),
a collection skips the deactivated plugin entirely on any subsequent event,
a reload without an mtime advance is a no-op (the plugin stays inactive),
and a reload after the mtime advances reactivates the plugin. -/
theorem c8_crashing_callback (p : Plugin) (now now2 : Nat) (e e2 : Event)
    (A B : Callback) (rest : List Callback) (nm path : String) (m : Nat)
    (ncbs : List Callback)
    (hcbs : p.callbacks = A :: B :: rest)
    (hPact : p.active = true)
    (hAact : A.active = true)
    (hcp : canProcess A.matchEvents e = true)
    (hbeh : A.behavior e = false)
    (hfresh : backlogContains p.backlog e.id = false)
    (hnew : ∀ l, p.lastEventId = some l → l < e.id)
    (hm : p.mtime = some m) :
    (Plugin.process p now e).1.callbacks = { A with active := false } :: B :: rest
    ∧ (Plugin.process p now e).1.active = false
    ∧ (Plugin.process p now e).2 = [(A.name, e.id)]
    ∧ PluginCollection.process { path := path, plugins := [(nm, (Plugin.process p now e).1)] } now2 e2
        = ({ path := path, plugins := [(nm, (Plugin.process p now e).1)] }, [])
    ∧ Plugin.load (Plugin.process p now e).1 m ncbs = (Plugin.process p now e).1
    ∧ (Plugin.load (Plugin.process p now e).1 (m + 1) ncbs).active = true := by
  have hproc : procCallbacks e p.active (A :: B :: rest)
      = ({ A with active := false } :: B :: rest, false, [(A.name, e.id)]) := by
    simp [procCallbacks, hAact, hcp, Callback.process, hbeh]
  have hpe : Plugin.process p now e
      = ({ p with callbacks := { A with active := false } :: B :: rest, active := false },
         [(A.name, e.id)]) := by
    cases hle : p.lastEventId with
    | none =>
      simp only [Plugin.process, hfresh, Bool.false_eq_true, if_false, hle,
        Plugin._process, hcbs, hproc]
    | some l =>
      simp only [Plugin.process, hfresh, Bool.false_eq_true, if_false, hle]
      rw [if_neg (Nat.not_le.mpr (hnew l hle))]
      simp [Plugin._process, hcbs, hproc, hle]
  rw [hpe]
  refine ⟨rfl, rfl, rfl, ?_, ?_, ?_⟩
  · simp [PluginCollection.process, processPlugins]
  · simp only [Plugin.load, hm]
    rw [if_neg (Nat.lt_irrefl m)]
  · simp only [Plugin.load, hm]
    rw [if_pos (Nat.lt_succ_self m)]

/-- A second callback that always succeeds, with no match filter. -/
def cbB : Callback :=
  { name := "B", matchEvents := none, behavior := fun _ => true, active := true }

/-- A plugin whose first callback raises and whose second would succeed. -/
def pW8 : Plugin :=
  { active := true, lastEventId := some 10, backlog := [],
    callbacks := [cbBad, cbB], mtime := some 7 }

/-- Witness for claim C8: processing event 12 through `pW8` deactivates the
plugin, dispatches only to A (B receives nothing), a collection then skips
the plugin, a reload at the same mtime leaves it inactive, and a reload at
a later mtime reactivates it. -/
theorem c8_crashing_callback_witness :
    (Plugin.process pW8 0 (evt 12)).1.active = false
    ∧ (Plugin.process pW8 0 (evt 12)).2 = [("A", 12)]
    ∧ (PluginCollection.process
        { path := "/p", plugins := [("x", (Plugin.process pW8 0 (evt 12)).1)] } 1 (evt 13)).2 = []
    ∧ (Plugin.load (Plugin.process pW8 0 (evt 12)).1 7 [cbOK]).active = false
    ∧ (Plugin.load (Plugin.process pW8 0 (evt 12)).1 8 [cbOK]).active = true := by
  have h := c8_crashing_callback pW8 0 1 (evt 12) (evt 13) cbBad cbB [] "x" "/p" 7 [cbOK]
    rfl rfl rfl rfl rfl rfl
    (by
      intro l hl
      have h10 : some (10 : Nat) = some l := hl
      injection h10 with hh
      rw [← hh]
      decide)
    rfl
  exact ⟨h.2.1, (h.2.2.1).trans rfl, congrArg Prod.snd h.2.2.2.1,
    (congrArg Plugin.active h.2.2.2.2.1).trans h.2.1,
    h.2.2.2.2.2⟩

/-- Claim C9: the legacy bare-integer form of `PluginCollection.setState`
broadcasts the integer as the cursor of every plugin of the collection, and
the structured form restores each named plugin's (lastEventId, backlog)
pair from its entry in the mapping. -/
theorem c9_set_state (coll : PluginCollection) :
    (∀ n nm p, (nm, p) ∈ coll.plugins →
      (nm, { p with lastEventId := some n })
        ∈ (PluginCollection.setState coll (.legacyInt n)).plugins)
    ∧ (∀ m nm p l b, (nm, p) ∈ coll.plugins →
        lookupState m nm = some (.tupleState l b) →
        (nm, { p with lastEventId := l, backlog := b })
          ∈ (PluginCollection.setState coll (.structured m)).plugins) := by
  constructor
  · intro n nm p hmem
    simp only [PluginCollection.setState]
    rw [List.mem_map]
    exact ⟨(nm, p), hmem, rfl⟩
  · intro m nm p l b hmem hlook
    simp only [PluginCollection.setState]
    rw [List.mem_map]
    refine ⟨(nm, p), hmem, ?_⟩
    simp only [hlook]
    rfl

/-- Witness for claim C9 on the one-plugin collection `collFresh`: a legacy
integer 42 lands as every plugin's cursor, and a structured entry restores
cursor 7 with backlog entry (5, 9). -/
theorem c9_set_state_witness :
    ("plug", { pFresh with lastEventId := some 42 })
      ∈ (PluginCollection.setState collFresh (.legacyInt 42)).plugins
    ∧ ("plug", { pFresh with lastEventId := some 7, backlog := [(5, 9)] })
      ∈ (PluginCollection.setState collFresh
          (.structured [("plug", .tupleState (some 7) [(5, 9)])])).plugins := by
  have h := c9_set_state collFresh
  exact ⟨h.1 42 "plug" pFresh (List.mem_singleton.mpr rfl),
    h.2 [("plug", .tupleState (some 7) [(5, 9)])] "plug" pFresh (some 7) [(5, 9)]
      (List.mem_singleton.mpr rfl) rfl⟩

/-- Does some callback of the plugin raise on this event when dispatched?
Because the callback loop only stops at a failure, the first active,
filter-matching, raising callback is always reached. -/
def someCallbackRaises (p : Plugin) (e : Event) : Bool :=
  p.callbacks.any (fun c => c.active && canProcess c.matchEvents e && !(c.behavior e))

/-- If some callback in the list raises, the callback loop ends with the
plugin-active flag false. -/
theorem procCallbacks_raises (e : Event) (cbs : List Callback) (act : Bool)
    (h : cbs.any (fun c => c.active && canProcess c.matchEvents e && !(c.behavior e)) = true) :
    (procCallbacks e act cbs).2.1 = false := by
  induction cbs with
  | nil => simp at h
  | cons c rest ih =>
    simp only [List.any_cons, Bool.or_eq_true] at h
    by_cases hca : c.active = true
    · by_cases hcp : canProcess c.matchEvents e = true
      · by_cases hb : c.behavior e = true
        · have hrest : rest.any (fun c => c.active && canProcess c.matchEvents e && !(c.behavior e)) = true := by
            rcases h with h1 | h2
            · rw [hca, hcp, hb] at h1
              simp at h1
            · exact h2
          simp [procCallbacks, hca, hcp, Callback.process, hb, ih hrest]
        · simp [procCallbacks, hca, hcp, Callback.process, hb]
      · have hrest : rest.any (fun c => c.active && canProcess c.matchEvents e && !(c.behavior e)) = true := by
          rcases h with h1 | h2
          · rw [Bool.not_eq_true] at hcp
            rw [hcp] at h1
            simp at h1
          · exact h2
        simp [procCallbacks, hca, hcp, ih hrest]
    · have hrest : rest.any (fun c => c.active && canProcess c.matchEvents e && !(c.behavior e)) = true := by
        rcases h with h1 | h2
        · rw [Bool.not_eq_true] at hca
          rw [hca] at h1
          simp at h1
        · exact h2
      simp [procCallbacks, hca, ih hrest]

/-- When the callback loop fails and the event is in a dispatching branch
(in the backlog, or beyond the cursor), `Plugin.process` returns the result
of `_process` unchanged: no cursor update, no backlog deletion. -/
theorem process_fail (p : Plugin) (now : Nat) (e : Event)
    (hfail : (Plugin._process p e).2.1 = false)
    (hbr : backlogContains p.backlog e.id = true
      ∨ (∀ l, p.lastEventId = some l → l < e.id)) :
    Plugin.process p now e = ((Plugin._process p e).1, (Plugin._process p e).2.2) := by
  rcases hbr with hb | hgt
  · simp only [Plugin.process, hb, if_true, hfail, Bool.false_eq_true, if_false]
  · cases hle : p.lastEventId with
    | none =>
      simp only [Plugin.process, hle]
      cases hcb : backlogContains p.backlog e.id <;> simp [hfail]
    | some l =>
      have hnle : ¬ e.id ≤ l := Nat.not_le.mpr (hgt l hle)
      simp only [Plugin.process, hle]
      cases hcb : backlogContains p.backlog e.id
      · simp [hfail, hnle]
      · simp [hfail]

/-- Claim C10: if some callback raises while the plugin dispatches an event
(so the plugin deactivates), the plugin's cursor and backlog are exactly
what they were before the call — a failed event is never recorded as
processed. -/
theorem c10_failed_event_not_recorded (p : Plugin) (now : Nat) (e : Event)
    (hr : someCallbackRaises p e = true)
    (hbr : backlogContains p.backlog e.id = true
      ∨ (∀ l, p.lastEventId = some l → l < e.id)) :
    (Plugin.process p now e).1.lastEventId = p.lastEventId
    ∧ (Plugin.process p now e).1.backlog = p.backlog
    ∧ (Plugin.process p now e).1.active = false := by
  have hfail : (Plugin._process p e).2.1 = false :=
    procCallbacks_raises e p.callbacks p.active hr
  rw [process_fail p now e hfail hbr]
  exact ⟨(_process_preserves p e).1, (_process_preserves p e).2.1, hfail⟩

/-- A plugin whose only callback raises, cursor 10, empty backlog. -/
def pW10 : Plugin :=
  { active := true, lastEventId := some 10, backlog := [], callbacks := [cbBad],
    mtime := some 1 }

/-- Witness for claim C10: the raising callback leaves cursor and backlog
of `pW10` untouched while deactivating the plugin. -/
theorem c10_failed_event_not_recorded_witness :
    (Plugin.process pW10 0 (evt 12)).1.lastEventId = some 10
    ∧ (Plugin.process pW10 0 (evt 12)).1.backlog = []
    ∧ (Plugin.process pW10 0 (evt 12)).1.active = false := by
  have h := c10_failed_event_not_recorded pW10 0 (evt 12) rfl
    (Or.inr (by
      intro l hl
      have h10 : some (10 : Nat) = some l := hl
      injection h10 with hh
      rw [← hh]
      decide))
  exact ⟨h.1.trans rfl, h.2.1.trans rfl, h.2.2⟩
